import Mathlib

/-!
Verification of the CRM-SYNC email-to-CRM matching and note-guarantee core.

This file shallowly embeds the Python source of the repository:
  * `email_crm_sync/services/enhanced_processor.py` (matching engine,
    guarantee engine / fallback note creation),
  * `email_crm_sync/clients/zoho_v8_enhanced_client.py` (COQL queries,
    metadata caches, duplicate check, advanced email search, criteria
    builder),
  * `email_crm_sync/clients/zoho/search.py` (COQL / criteria search with
    exception-based error signalling).

Remote HTTP calls are modelled as oracle parameters; Python exceptions are
modelled with `Except`; Python dicts whose key set matters are modelled as
association lists over a dynamic value type `PyVal`; dict keys that may be
absent are modelled with `Option`.
-/

/-! ## Python-style string primitives (exact semantics of the operations used) -/

/-- Split a character list at every character satisfying `p` (pieces may be
empty, like Python `re.split` on single characters). -/
def splitByPred (p : Char → Bool) : List Char → List (List Char)
  | [] => [[]]
  | x :: xs =>
    let r := splitByPred p xs
    if p x then [] :: r
    else
      match r with
      | h :: t => (x :: h) :: t
      | [] => [[x]]

/-- Python `str.split()` with no arguments: split on runs of whitespace,
dropping empty pieces. -/
def pySplitWs (s : String) : List String :=
  ((splitByPred Char.isWhitespace s.data).map (fun l => (⟨l⟩ : String))).filter
    (fun w => w ≠ "")

/-- Python `str.lower()` (ASCII; the program only lowercases email text). -/
def pyLower (s : String) : String :=
  ⟨s.data.map Char.toLower⟩

/-- Python `str.strip()` with no arguments: drop whitespace at both ends. -/
def pyStrip (s : String) : String :=
  ⟨((s.data.dropWhile Char.isWhitespace).reverse.dropWhile Char.isWhitespace).reverse⟩

/-- Python `s.split(sep)` for a one-character separator. -/
def pySplitChar (s : String) (sep : Char) : List String :=
  (splitByPred (fun c => c = sep) s.data).map (fun l => (⟨l⟩ : String))

/-- Python `c in s` for a single character. -/
def pyContains (s : String) (c : Char) : Bool :=
  s.data.contains c

/-- Replace every occurrence of the character `a` by `b`
(Python `str.replace(a, b)` with one-character pattern and replacement). -/
def replaceChar (s : String) (a b : Char) : String :=
  ⟨s.data.map (fun c => if c = a then b else c)⟩

/-- Remove all (leftmost, non-overlapping) occurrences of the pattern `pat`
from a character list; Python `str.replace(pat, '')` for non-empty `pat`.
Structural recursion on a fuel bound (each step consumes at least one
character, so fuel = initial length always suffices). -/
def removeAllAux (pat : List Char) : Nat → List Char → List Char
  | _, [] => []
  | 0, l => l
  | fuel + 1, c :: rest =>
    if pat.isPrefixOf (c :: rest) ∧ pat ≠ [] then
      removeAllAux pat fuel (rest.drop (pat.length - 1))
    else
      c :: removeAllAux pat fuel rest

/-- Python `s.replace(pat, '')` for a non-empty pattern `pat`. -/
def removeAll (pat : String) (s : String) : String :=
  ⟨removeAllAux pat.data s.data.length s.data⟩

/-- Python `str.isdigit()` restricted to ASCII digits (the only inputs the
program feeds it are tokens of e-mail text). -/
def pyIsDigit (s : String) : Bool :=
  s ≠ "" && s.data.all Char.isDigit

/-- Python `str.title()`: a letter that follows a letter is lowercased,
a letter that follows a non-letter (or starts the string) is uppercased. -/
def pyTitleAux : Bool → List Char → List Char
  | _, [] => []
  | prevAlpha, c :: rest =>
    if c.isAlpha then
      (if prevAlpha then c.toLower else c.toUpper) :: pyTitleAux true rest
    else
      c :: pyTitleAux false rest

/-- Python `str.title()`. -/
def pyTitle (s : String) : String :=
  ⟨pyTitleAux false s.data⟩

/-- Python `s.startswith(p)`. -/
def pyStartsWith (s p : String) : Bool :=
  p.data.isPrefixOf s.data

/-- Contiguous-sublist check: `needle` occurs somewhere in `hay`. -/
def subAt (needle : List Char) : List Char → Bool
  | [] => needle.isEmpty
  | c :: rest => needle.isPrefixOf (c :: rest) || subAt needle rest

/-- Python `needle in hay` for strings (substring containment). -/
def pySubstrIn (needle hay : String) : Bool :=
  subAt needle.data hay.data

/-! ## Records and match results

`Rec` models a Zoho record dict as consumed by the processor: subscript
access `record['id']` is total on Zoho records, `record.get('Account_Name',
'Unknown')` may miss. `MatchResult` models the result dicts of
`_find_matching_development_smart` and its helpers; `Option` fields model
dict keys that some code paths leave out. -/

structure Rec where
  rid : String
  accountName : Option String
deriving Repr, DecidableEq

structure MatchResult where
  found : Bool
  development_id : Option String
  development_name : Option String
  method : Option String
  confidence : Option String
deriving Repr, DecidableEq

/-- The bare `{'found': False}` dict returned by the search helpers. -/
def notFoundResult : MatchResult :=
  ⟨false, none, none, none, none⟩

/-- The `{'found': False, 'method': 'no_match', 'confidence': 'none'}` dict
returned by `_find_matching_development_smart` when every strategy misses. -/
def noMatchResult : MatchResult :=
  ⟨false, none, none, some "no_match", some "none"⟩

/-- Build the found-result dict all search helpers share. -/
def foundResult (r : Rec) (method confidence : String) : MatchResult :=
  ⟨true, some r.rid, some (r.accountName.getD "Unknown"), some method,
    some confidence⟩

/-! ## Keyword extraction (`_extract_address_keywords`,
`_extract_company_keywords`, `_extract_subject_keywords`) -/

def addressCommonWords : List String :=
  ["road", "street", "avenue", "lane", "drive", "close", "gardens",
   "estate", "of", "the", "and", "house", "flat", "apartment"]

def companyCommonWords : List String :=
  ["ltd", "limited", "plc", "llc", "inc", "corp", "corporation",
   "company", "co", "group", "holdings", "development", "developments"]

def subjectCommonWords : List String :=
  ["re", "fwd", "fw", "reply", "regarding", "about", "email", "message",
   "urgent", "important", "please", "thanks", "thank", "you", "update"]

/-- `_extract_address_keywords`. -/
def extract_address_keywords (address : String) : List String :=
  let words := pySplitWs (replaceChar (replaceChar (pyLower address) ',' ' ') '-' ' ')
  (words.filter (fun w =>
      w.length > 2 && !addressCommonWords.contains w && !pyIsDigit w)).map pyTitle

/-- `_extract_company_keywords`. -/
def extract_company_keywords (company_name : String) : List String :=
  let words := pySplitWs (replaceChar (replaceChar (pyLower company_name) ',' ' ') '-' ' ')
  (words.filter (fun w =>
      w.length > 2 && !companyCommonWords.contains w)).map pyTitle

/-- `_extract_subject_keywords`. -/
def extract_subject_keywords (subject : String) : List String :=
  let cleaned := replaceChar (removeAll "fwd:" (removeAll "re:" (pyLower subject))) ',' ' '
  let words := pySplitWs cleaned
  (words.filter (fun w =>
      w.length > 3 && !subjectCommonWords.contains w && !pyIsDigit w)).map pyTitle

/-! ## `_word_search_safe`

The Zoho word search is an oracle `ws`; a raised exception is an `.error`
value and is swallowed (the method returns `[]` in that case). The Python
default `max_results = 5` is used by every caller, so it is inlined. -/

def word_search_safe (ws : String → Except String (List Rec)) (term : String) :
    List Rec :=
  if term.length < 2 then []
  else
    match ws term with
    | .error _ => []
    | .ok results => results.take 5

/-! ## The five search strategies of `_find_matching_development_smart` -/

/-- Strategy 1: the `for sender_email in sender_emails` loop — per sender,
try the domain (confidence high), then the username when longer than 3
characters (confidence medium); `none` when the loop falls through. -/
def strat_sender (wss : String → List Rec) : List String → Option MatchResult
  | [] => none
  | sender :: rest =>
    if sender ≠ "" ∧ pyContains sender '@' then
      let parts := pySplitChar sender '@'
      let domain := parts.getD 1 ""
      match wss domain with
      | r :: _ => some (foundResult r ("Email domain: " ++ domain) "high")
      | [] =>
        let username := parts.getD 0 ""
        if username.length > 3 then
          match wss username with
          | r :: _ => some (foundResult r ("Email username: " ++ username) "medium")
          | [] => strat_sender wss rest
        else
          strat_sender wss rest
    else
      strat_sender wss rest

/-- The `for i, part in enumerate(address_parts[:3])` loop of
`_search_by_address_parts`; `i` is the running enumerate index. -/
def addr_loop (wss : String → List Rec) : Nat → List String → MatchResult
  | _, [] => notFoundResult
  | i, p :: rest =>
    match wss p with
    | r :: _ =>
      foundResult r ("Address part: " ++ p) (if i = 0 then "high" else "medium")
    | [] => addr_loop wss (i + 1) rest

/-- `_search_by_address_parts`. -/
def search_by_address_parts (wss : String → List Rec) (address : String) :
    MatchResult :=
  if address = "" then notFoundResult
  else addr_loop wss 0 ((extract_address_keywords address).take 3)

/-- The `for i, part in enumerate(company_parts[:2])` loop of
`_search_by_company_parts`. -/
def company_loop (wss : String → List Rec) : Nat → List String → MatchResult
  | _, [] => notFoundResult
  | i, p :: rest =>
    match wss p with
    | r :: _ =>
      foundResult r ("Company part: " ++ p) (if i = 0 then "high" else "medium")
    | [] => company_loop wss (i + 1) rest

/-- `_search_by_company_parts`. -/
def search_by_company_parts (wss : String → List Rec) (company_name : String) :
    MatchResult :=
  if company_name = "" then notFoundResult
  else company_loop wss 0 ((extract_company_keywords company_name).take 2)

/-- The `for keyword in keywords[:3]` loop of `_search_subject_keywords`. -/
def subject_loop (wss : String → List Rec) : List String → MatchResult
  | [] => notFoundResult
  | p :: rest =>
    match wss p with
    | r :: _ => foundResult r ("Subject keyword: " ++ p) "low"
    | [] => subject_loop wss rest

/-- `_search_subject_keywords`. -/
def search_subject_keywords (wss : String → List Rec) (subject : String) :
    MatchResult :=
  if subject = "" then notFoundResult
  else subject_loop wss ((extract_subject_keywords subject).take 3)

/-! ## `_find_matching_development_smart` -/

/-- The inputs the matching engine reads:
`email_content.get('email_addresses', {}).get('from', [])`,
`email_content['subject']` and the AI-extracted `development_info` fields
(`.get`, absent or empty string means falsy). -/
structure EmailContent where
  subject : String
  from_addresses : List String
deriving Repr

structure DevelopmentInfo where
  property_address : Option String
  client_name : Option String
  development_name : Option String
deriving Repr

/-- `_find_matching_development_smart`: the five strategies in source
order, each strategy's found result returned immediately. -/
def find_matching_development_smart (ws : String → Except String (List Rec))
    (ec : EmailContent) (di : DevelopmentInfo) : MatchResult :=
  let wss := word_search_safe ws
  match strat_sender wss ec.from_addresses with
  | some r => r
  | none =>
    let addr := di.property_address.getD ""
    let r2 := if addr ≠ "" then search_by_address_parts wss addr else notFoundResult
    if r2.found then r2
    else
      let client := di.client_name.getD ""
      let r3 := if client ≠ "" then search_by_company_parts wss client else notFoundResult
      if r3.found then r3
      else
        let devname := di.development_name.getD ""
        let r4 := if devname ≠ "" then search_by_company_parts wss devname else notFoundResult
        if r4.found then r4
        else
          let subj := ec.subject
          let r5 := if subj ≠ "" then search_subject_keywords wss subj else notFoundResult
          if r5.found then r5
          else noMatchResult

/-! ## Dynamic Python values and dicts

Zoho API responses are JSON dicts whose exact key set matters (claims C1,
C4, C10), so they are modelled by a dynamic value type and dicts as
association lists (first binding wins, as a Python dict has unique keys and
the embedding only builds dicts with distinct keys). -/

inductive PyVal where
  | vnone : PyVal
  | vbool : Bool → PyVal
  | vint : Int → PyVal
  | vstr : String → PyVal
  | vlist : List PyVal → PyVal
  | vdict : List (String × PyVal) → PyVal

abbrev PyDict := List (String × PyVal)

/-- Python `d.get(k)` (`None`, i.e. `none`, when the key is absent). -/
def dget (d : PyDict) (k : String) : Option PyVal :=
  (d.find? (fun p => p.1 == k)).map (fun p => p.2)

/-- Python dict assignment `d[k] = v` for association lists. -/
def dset (d : PyDict) (k : String) (v : PyVal) : PyDict :=
  (k, v) :: d.filter (fun p => p.1 ≠ k)

/-- Python truthiness of the values the embedding manipulates. -/
def truthy : PyVal → Bool
  | .vnone => false
  | .vbool b => b
  | .vint n => n ≠ 0
  | .vstr s => s ≠ ""
  | .vlist xs => !xs.isEmpty
  | .vdict d => !d.isEmpty

/-- Truthiness of a `d.get(k)` result (`None` is falsy). -/
def truthyOpt : Option PyVal → Bool
  | none => false
  | some v => truthy v

/-- Dynamic coercion of a value that the source iterates over / indexes as
a list (Zoho always returns lists in these positions). -/
def asList : Option PyVal → List PyVal
  | some (.vlist xs) => xs
  | _ => []

/-! ## `_is_success_response`, `_extract_note_id`, `_create_note_safe` -/

/-- `_is_success_response`: `'data'` present and non-empty → first item's
`status == 'success'`; otherwise `'success'` key if present; else False. -/
def is_success_response (response : PyVal) : Bool :=
  match response with
  | .vdict d =>
    match dget d "data" with
    | some (.vlist (x :: _)) =>
      match x with
      | .vdict xd =>
        match dget xd "status" with
        | some (.vstr s) => s == "success"
        | _ => false
      | _ => false
    | _ =>
      match dget d "success" with
      | some v => truthy v
      | none => false
  | _ => false

/-- `_extract_note_id`: `response['data'][0].get('details', {}).get('id')`,
any missing step yielding `None`. -/
def extract_note_id (response : PyVal) : Option String :=
  match response with
  | .vdict d =>
    match dget d "data" with
    | some (.vlist (x :: _)) =>
      match x with
      | .vdict xd =>
        match dget xd "details" with
        | some (.vdict dd) =>
          match dget dd "id" with
          | some (.vstr s) => some s
          | _ => none
        | _ => none
      | _ => none
    | _ => none
  | _ => none

/-- Result dicts of `_create_note_safe`; every literal sets `success`. -/
structure CreateResult where
  success : Bool
  note_id : Option String
  error : Option String
deriving Repr, DecidableEq

/-- Events observable at the remote boundary of the guarantee engine. -/
inductive PEv where
  | fetchAccounts : PEv
  | noteCall : String → String → String → PEv
deriving Repr, DecidableEq

/-- `_create_note_safe`: the remote note creation
(`create_note_with_email_tracking`, which the V8 client provides) is the
oracle `noteApi development_id title content`; a raised exception is an
`.error` and yields `success = False`. -/
def create_note_safe (noteApi : String → String → String → Except String PyVal)
    (development_id title content : String) : CreateResult × List PEv :=
  match noteApi development_id title content with
  | .error e =>
    (⟨false, none, some ("Exception: " ++ e)⟩, [PEv.noteCall development_id title content])
  | .ok result =>
    if is_success_response result then
      (⟨true, extract_note_id result, none⟩, [PEv.noteCall development_id title content])
    else
      (⟨false, none, some "API returned failure"⟩, [PEv.noteCall development_id title content])

/-! ## Guarantee engine state and fallback note creation -/

/-- `self._accounts_cache` (initially `None`) and `self._cache_populated`. -/
structure ProcState where
  accounts_cache : Option (List Rec)
  cache_populated : Bool
deriving Repr, DecidableEq

/-- Response of the direct accounts-listing request in
`_populate_accounts_cache` (the V8 client has no `get_all_records`, so the
`else` branch issuing `session.get` on the module listing runs). -/
structure AccountsHttp where
  status : Nat
  accounts : List Rec
deriving Repr, DecidableEq

/-- `_populate_accounts_cache`: on HTTP 200 cache the listed records,
otherwise (non-200 or exception) cache `[]`; always set the populated flag. -/
def populate_accounts_cache (listApi : Except String AccountsHttp)
    (_st : ProcState) : ProcState :=
  match listApi with
  | .error _ => ⟨some [], true⟩
  | .ok resp => ⟨some (if resp.status == 200 then resp.accounts else []), true⟩

/-- `ProcessingOutcome` dicts returned by `_create_note_with_strategy` and
`_create_fallback_note`; `Option` models presence of each dict key, so the
claimed invariant "`success` is always set" is a real statement. -/
structure NoteOutcome where
  success : Option Bool
  development_id : Option String
  message : Option String
  note_id : Option String
  error : Option String
deriving Repr, DecidableEq

/-- The `{'success': False, 'error': 'No accounts available...'}` outcome. -/
def noAccountsOutcome : NoteOutcome :=
  ⟨some false, none, none, none, some "No accounts available for fallback note creation"⟩

/-- The fallback note title: `"Email (Unmatched): "` plus the subject,
truncated when the natural title exceeds 110 characters. -/
def fallback_note_title (subject : String) : String :=
  let note_title := "Email (Unmatched): " ++ subject
  if note_title.length > 110 then
    "Email (Unmatched): " ++ subject.take (110 - 18) ++ "..."
  else note_title

/-- The fallback note body (the f-string of `_create_fallback_note`). -/
def fallback_note_content (email_summary attempted_method gmail_message_id
    timestamp : String) : String :=
  ("Email Summary:\n" ++ email_summary ++
    "\n\n⚠️ FALLBACK NOTE: Could not find specific matching development\n") ++
  ("Attempted Method: " ++ attempted_method) ++
  ("\nGmail Message ID: " ++ gmail_message_id ++ "\nProcessed: " ++ timestamp ++
    "\n\nThis email was processed but no specific development match was found.\nPlease review and reassign if needed.\n")

/-- `_create_fallback_note`. The current wall-clock string
(`_get_timestamp`) is the parameter `timestamp`. Alongside the outcome dict
and the updated processor state it returns the trace of remote calls. -/
def create_fallback_note (noteApi : String → String → String → Except String PyVal)
    (listApi : Except String AccountsHttp) (st : ProcState) (ec : EmailContent)
    (email_summary gmail_message_id attempted_method timestamp : String) :
    NoteOutcome × ProcState × List PEv :=
  let st1 := if st.cache_populated then st else populate_accounts_cache listApi st
  let tr1 : List PEv := if st.cache_populated then [] else [PEv.fetchAccounts]
  match st1.accounts_cache with
  | none => (noAccountsOutcome, st1, tr1)
  | some [] => (noAccountsOutcome, st1, tr1)
  | some (account :: _) =>
    let account_id := account.rid
    let account_name := account.accountName.getD "Unknown"
    let note_title := fallback_note_title ec.subject
    let note_content :=
      fallback_note_content email_summary attempted_method gmail_message_id timestamp
    let result := (create_note_safe noteApi account_id note_title note_content).1
    let tr2 := (create_note_safe noteApi account_id note_title note_content).2
    if result.success then
      (⟨some true, some account_id,
         some ("Fallback note created on account: " ++ account_name),
         result.note_id, none⟩, st1, tr1 ++ tr2)
    else
      (⟨some false, none, none, none,
         some ("Fallback note creation failed: " ++ (result.error.getD "None"))⟩,
        st1, tr1 ++ tr2)

/-- The matched-note title (`"Email: "` prefix, truncated past 110). -/
def matched_note_title (subject : String) : String :=
  let note_title := "Email: " ++ subject
  if note_title.length > 110 then
    "Email: " ++ subject.take (110 - 8) ++ "..."
  else note_title

/-- The matched-note body (the f-string of `_create_note_with_strategy`). -/
def matched_note_content (email_summary method gmail_message_id
    timestamp : String) : String :=
  "Email Summary:\n" ++ email_summary ++ "\n\nMatching Method: " ++ method ++
    "\nGmail Message ID: " ++ gmail_message_id ++ "\nProcessed: " ++ timestamp ++ "\n"

/-- `_create_note_with_strategy`. Subscript reads
`match_result['development_id']` / `match_result['method']` in the
`found` branch raise `KeyError` when absent, modelled by `Except`. -/
def create_note_with_strategy (noteApi : String → String → String → Except String PyVal)
    (listApi : Except String AccountsHttp) (st : ProcState) (mr : MatchResult)
    (ec : EmailContent) (email_summary gmail_message_id timestamp : String) :
    Except String (NoteOutcome × ProcState × List PEv) :=
  if mr.found then
    match mr.development_id, mr.method with
    | some development_id, some method =>
      let development_name := mr.development_name.getD "Unknown"
      let note_title := matched_note_title ec.subject
      let note_content :=
        matched_note_content email_summary method gmail_message_id timestamp
      let result := (create_note_safe noteApi development_id note_title note_content).1
      let tr := (create_note_safe noteApi development_id note_title note_content).2
      if result.success then
        .ok (⟨some true, some development_id,
          some ("Note created on matched development: " ++ development_name ++
            " (via " ++ method ++ ")"), result.note_id, none⟩, st, tr)
      else
        let fb := create_fallback_note noteApi listApi st ec
          email_summary gmail_message_id (mr.method.getD "no_match") timestamp
        .ok (fb.1, fb.2.1, tr ++ fb.2.2)
    | _, _ => .error "KeyError"
  else
    .ok (create_fallback_note noteApi listApi st ec email_summary
      gmail_message_id (mr.method.getD "no_match") timestamp)

/-! ## The V8 client: metadata caches (`_is_cache_valid`, `_update_cache`,
`get_field_metadata`, `get_module_metadata`), `coql_query`,
`check_email_already_processed`, `advanced_email_search`,
`search_developments_by_criteria` -/

namespace V8

/-- The client's cache state: `self._module_cache`, `self._field_cache`
and `self._cache_timestamps` (timestamps as integer seconds; `time.time()`
is monotone wall clock, the code only subtracts them). -/
structure ZState where
  module_cache : PyDict
  field_cache : PyDict
  timestamps : List (String × Int)

def tlookup (ts : List (String × Int)) (k : String) : Option Int :=
  (ts.find? (fun p => p.1 == k)).map (fun p => p.2)

/-- `_is_cache_valid`: key present and `now - written_at < ttl_hours*3600`. -/
def is_cache_valid (st : ZState) (now : Int) (cache_key : String)
    (ttl_hours : Int) : Bool :=
  match tlookup st.timestamps cache_key with
  | none => false
  | some t => now - t < ttl_hours * 3600

/-- `_update_cache`: stamp the key with `now`, then store the payload in
the partition selected by the key's prefix. -/
def update_cache (now : Int) (st : ZState) (cache_key : String) (data : PyVal) :
    ZState :=
  let st1 : ZState :=
    ⟨st.module_cache, st.field_cache,
      (cache_key, now) :: st.timestamps.filter (fun p => p.1 ≠ cache_key)⟩
  if pyStartsWith cache_key "modules" then
    ⟨dset st1.module_cache cache_key data, st1.field_cache, st1.timestamps⟩
  else if pyStartsWith cache_key "fields" then
    ⟨st1.module_cache, dset st1.field_cache cache_key data, st1.timestamps⟩
  else st1

/-- An HTTP response as the client consumes it: status code and the parsed
JSON body (`jsonBody = none` models `response.json()` raising), plus
`response.text`. -/
structure HttpR where
  status : Nat
  jsonBody : Option PyDict
  text : String

/-- `get_field_metadata` (12-hour TTL). Returns the field list (as the
dynamic value actually handed back), the new state, and whether a network
request was issued. -/
def get_field_metadata (fetch : Except String HttpR) (now : Int) (st : ZState)
    (developments_module : String) (moduleArg : Option String) :
    PyVal × ZState × Bool :=
  let search_module := moduleArg.getD developments_module
  let cache_key := "fields_metadata_" ++ search_module
  if is_cache_valid st now cache_key 12 then
    ((dget st.field_cache cache_key).getD (.vlist []), st, false)
  else
    match fetch with
    | .error _ => (.vlist [], st, true)
    | .ok resp =>
      if resp.status == 200 then
        match resp.jsonBody with
        | some b =>
          let fields := (dget b "fields").getD (.vlist [])
          (fields, update_cache now st cache_key fields, true)
        | none => (.vlist [], st, true)
      else (.vlist [], st, true)

/-- `get_module_metadata` (24-hour TTL). A cache hit returns the bare
cached payload; a fresh successful fetch returns the
`{'success': True, 'metadata': ...}` wrapper dict. -/
def get_module_metadata (fetch : Except String HttpR) (now : Int) (st : ZState)
    (developments_module : String) (moduleArg : Option String) :
    PyVal × ZState :=
  let search_module := moduleArg.getD developments_module
  let cache_key := "modules_metadata_" ++ search_module
  if is_cache_valid st now cache_key 24 then
    ((dget st.module_cache cache_key).getD (.vdict []), st)
  else
    match fetch with
    | .error e => (.vdict [("success", .vbool false), ("error", .vstr e)], st)
    | .ok resp =>
      if resp.status == 200 then
        match (resp.jsonBody.map (fun b => asList (dget b "modules"))).getD [] with
        | metadata :: _ =>
          (.vdict [("success", .vbool true), ("metadata", metadata)],
            update_cache now st cache_key metadata)
        | [] =>
          (.vdict [("success", .vbool false),
            ("error", .vstr "Module metadata not found")], st)
      else
        (.vdict [("success", .vbool false),
          ("error", .vstr ("HTTP " ++ toString resp.status ++ ": " ++ resp.text))], st)

/-- The `error_data.get("code", "UNKNOWN_ERROR")` step of `coql_query`'s
failure branch (bare `except` → `UNKNOWN_ERROR` when the body is not
JSON). -/
def coql_error_code (resp : HttpR) : String :=
  match resp.jsonBody with
  | some b =>
    match dget b "code" with
    | some (.vstr c) => c
    | _ => "UNKNOWN_ERROR"
  | none => "UNKNOWN_ERROR"

/-- The `error_data.get("message", error_text)` step of `coql_query`'s
failure branch. -/
def coql_error_message (resp : HttpR) : String :=
  match resp.jsonBody with
  | some b =>
    match dget b "message" with
    | some (.vstr m) => m
    | _ => resp.text
  | none => resp.text

/-- The success dict a 200 response yields in `coql_query`:
`records = data.get("data", [])`, `info = data.get("info", {})`,
`fields_meta = data.get("fields", {})`, appended to the result only when
truthy. -/
def coql_success_dict (b : PyDict) : PyDict :=
  if truthy ((dget b "fields").getD (.vdict [])) then
    [("data", (dget b "data").getD (.vlist [])),
     ("info", (dget b "info").getD (.vdict [])),
     ("success", .vbool true),
     ("fields", (dget b "fields").getD (.vdict []))]
  else
    [("data", (dget b "data").getD (.vlist [])),
     ("info", (dget b "info").getD (.vdict [])),
     ("success", .vbool true)]

/-- `coql_query` of the V8 client. Every returned dict carries `data` and
`success`; a 200 response whose body fails to parse propagates the JSON
error (`.error`). -/
def coql_query (post : String → Except String HttpR) (query : String) :
    Except String PyDict :=
  if !(pyStartsWith (pyLower (pyStrip query)) "select") then
    .ok [("data", .vlist []), ("success", .vbool false),
      ("error", .vstr "Query must be a SELECT statement")]
  else
    match post query with
    | .error e =>
      .ok [("data", .vlist []), ("success", .vbool false), ("error", .vstr e)]
    | .ok resp =>
      if resp.status == 200 then
        match resp.jsonBody with
        | some b => .ok (coql_success_dict b)
        | none => .error "JSONDecodeError"
      else
        .ok [("data", .vlist []), ("success", .vbool false),
          ("error", .vstr (coql_error_message resp)),
          ("error_code", .vstr (coql_error_code resp)),
          ("status_code", .vint resp.status)]

/-- The COQL duplicate-probe query interpolating the Gmail message id. -/
def notes_query (gmail_message_id : String) : String :=
  "SELECT id, Parent_Id FROM Notes WHERE Note_Title like '%" ++
    gmail_message_id ++ "%' OR Note_Content like '%" ++ gmail_message_id ++
    "%' LIMIT 10"

/-- `check_email_already_processed`. The success branch reads
`coql_result.get("records")`; any exception (including a failing
`coql_query`) is caught and yields `False`. -/
def check_email_already_processed (post : String → Except String HttpR)
    (disable_coql_features : Bool) (gmail_message_id : String) : Bool :=
  if !disable_coql_features then
    match coql_query post (notes_query gmail_message_id) with
    | .error _ => false
    | .ok coql_result =>
      if truthyOpt (dget coql_result "success") &&
          truthyOpt (dget coql_result "records") then
        true
      else false
  else false

end V8

namespace V8

/-- Remote-call events of the query layer. -/
inductive QEv where
  | emailSearch : String → QEv
  | coqlCall : String → QEv
  | wordSearch : String → String → QEv
  | criteriaSearch : String → String → QEv
deriving Repr, DecidableEq

/-- The accumulated `all_results` map of `advanced_email_search`. -/
abbrev ResultsMap := List (String × List PyVal)

/-- Strategy 1 of `advanced_email_search`: per-module
`search_by_email` (the oracle `sbe`), keeping non-empty result lists;
exceptions are caught and the loop continues. -/
def aes_stage1 (sbe : String → Except String (List PyVal)) :
    List String → ResultsMap × List QEv
  | [] => ([], [])
  | m :: rest =>
    match sbe m with
    | .error _ =>
      ((aes_stage1 sbe rest).1, QEv.emailSearch m :: (aes_stage1 sbe rest).2)
    | .ok results =>
      (if results.isEmpty then (aes_stage1 sbe rest).1
       else (m, results) :: (aes_stage1 sbe rest).1,
       QEv.emailSearch m :: (aes_stage1 sbe rest).2)

/-- The COQL correlation query f-string of strategy 2 (verbatim, including
the indentation of the triple-quoted literal). -/
def aes_coql_string (developments_module email company_name domain : String) :
    String :=
  "\n                        SELECT id, Account_Name, Email, Owner \n" ++
  "                        FROM " ++ developments_module ++ " \n" ++
  "                        WHERE (Email = '" ++ email ++ "') \n" ++
  "                        OR (Account_Name like '%" ++ company_name ++
    "%' AND Email like '%" ++ domain ++ "%')\n" ++
  "                        LIMIT 200\n                        "

/-- Strategy 2 of `advanced_email_search`: COQL company correlation, run
only when a company name was given and nothing accumulated so far; the
result is added only when the dict has truthy `success` and `records` keys
(the latter never occurs, `coql_query` emits `data`). -/
def aes_stage2 (post : String → Except String HttpR)
    (developments_module email : String) (company_name : Option String)
    (r1 : ResultsMap) : ResultsMap × List QEv :=
  let company := company_name.getD ""
  if company ≠ "" ∧ r1.isEmpty then
    let domain := if pyContains email '@' then (pySplitChar email '@').getD 1 "" else ""
    if domain ≠ "" then
      let q := aes_coql_string developments_module email company domain
      match coql_query post q with
      | .error _ => (r1, [QEv.coqlCall q])
      | .ok cr =>
        if truthyOpt (dget cr "success") && truthyOpt (dget cr "records") then
          (r1 ++ [("COQL_Advanced", asList (dget cr "records"))], [QEv.coqlCall q])
        else (r1, [QEv.coqlCall q])
    else (r1, [])
  else (r1, [])

/-- The word-search loop of strategy 3: `str(record)` is the oracle
`reprOf` (Python's dynamic repr), the filter keeps records whose lowered
repr contains the lowered email. -/
def aes_word_loop (wordS : String → String → Except String (List PyVal))
    (reprOf : PyVal → String) (email email_local : String) :
    List String → ResultsMap × List QEv
  | [] => ([], [])
  | m :: rest =>
    match wordS m email_local with
    | .error _ =>
      ((aes_word_loop wordS reprOf email email_local rest).1,
       QEv.wordSearch m email_local ::
         (aes_word_loop wordS reprOf email email_local rest).2)
    | .ok word_results =>
      (if (word_results.filter
            (fun record => pySubstrIn (pyLower email) (pyLower (reprOf record)))).isEmpty
       then (aes_word_loop wordS reprOf email email_local rest).1
       else (m ++ "_Word",
         word_results.filter
           (fun record => pySubstrIn (pyLower email) (pyLower (reprOf record)))) ::
           (aes_word_loop wordS reprOf email email_local rest).1,
       QEv.wordSearch m email_local ::
         (aes_word_loop wordS reprOf email email_local rest).2)

/-- Strategy 3 of `advanced_email_search`: free-word fallback over the
first two modules, run only when the accumulated map is still empty. -/
def aes_stage3 (wordS : String → String → Except String (List PyVal))
    (reprOf : PyVal → String) (email : String) (modules : List String)
    (r12 : ResultsMap) : ResultsMap × List QEv :=
  if r12.isEmpty then
    (r12 ++ (aes_word_loop wordS reprOf email
        (if pyContains email '@' then (pySplitChar email '@').getD 0 "" else email)
        (modules.take 2)).1,
     (aes_word_loop wordS reprOf email
        (if pyContains email '@' then (pySplitChar email '@').getD 0 "" else email)
        (modules.take 2)).2)
  else (r12, [])

/-- `advanced_email_search` of the V8 client: the three strategy blocks in
sequence, with the trace of remote calls. -/
def advanced_email_search (sbe : String → Except String (List PyVal))
    (post : String → Except String HttpR)
    (wordS : String → String → Except String (List PyVal))
    (reprOf : PyVal → String) (developments_module email : String)
    (company_name : Option String) (include_modules : Option (List String)) :
    ResultsMap × List QEv :=
  let modules := include_modules.getD
    [developments_module, "Contacts", "Leads", "Accounts", "Deals"]
  ((aes_stage3 wordS reprOf email modules
      (aes_stage2 post developments_module email company_name
        (aes_stage1 sbe modules).1).1).1,
   (aes_stage1 sbe modules).2 ++
     (aes_stage2 post developments_module email company_name
       (aes_stage1 sbe modules).1).2 ++
     (aes_stage3 wordS reprOf email modules
       (aes_stage2 post developments_module email company_name
         (aes_stage1 sbe modules).1).1).2)

/-- `str(value).replace("'", "\\'")` — the escaping step of
`search_developments_by_criteria` (one-character pattern, so character
level). -/
def escapeApos (s : String) : String :=
  ⟨s.data.flatMap (fun c => if c = '\'' then ['\\', '\''] else [c])⟩

/-- The criteria parts `(field:*value*)` built from non-empty values. -/
def criteria_parts (criteria_dict : List (String × String)) : List String :=
  criteria_dict.filterMap (fun fv =>
    if fv.2 ≠ "" then some ("(" ++ fv.1 ++ ":*" ++ escapeApos fv.2 ++ "*)")
    else none)

/-- `search_developments_by_criteria`: build the criteria string (escaping
each value) and run `search_by_criteria` (oracle `searchCrit`); any
exception yields `[]`. -/
def search_developments_by_criteria
    (searchCrit : String → String → Except String (List PyVal))
    (developments_module : String) (criteria_dict : List (String × String))
    (moduleArg : Option String) : List PyVal × List QEv :=
  if criteria_dict.isEmpty then ([], [])
  else
    let parts := criteria_parts criteria_dict
    if parts.isEmpty then ([], [])
    else
      let criteria_string := String.intercalate " and " parts
      let m := moduleArg.getD developments_module
      match searchCrit m criteria_string with
      | .ok results => (results, [QEv.criteriaSearch m criteria_string])
      | .error _ => ([], [QEv.criteriaSearch m criteria_string])

end V8

/-! ## The `zoho/search.py` module (`Search` class): exception-based COQL
and criteria search, and `find_by_email` -/

namespace SearchM

/-- `Search.coql_query`: 200 → parsed body, anything else raises
`SearchError` (modelled as `.error`). -/
def coql_query (post : String → Except String V8.HttpR) (query : String) :
    Except String PyDict :=
  match post query with
  | .error e => .error ("Network error executing COQL query: " ++ e)
  | .ok resp =>
    if resp.status == 200 then
      match resp.jsonBody with
      | some b => .ok b
      | none => .error "JSONDecodeError"
    else
      .error ("COQL query failed: HTTP " ++ toString resp.status ++ ": " ++ resp.text)

/-- `Search.search_records`: 200 → body, 204 → `{'data': []}`, anything
else raises `SearchError`. -/
def search_records (get : String → String → Except String V8.HttpR)
    (module criteria : String) : Except String PyDict :=
  match get module criteria with
  | .error e => .error ("Network error during search: " ++ e)
  | .ok resp =>
    if resp.status == 200 then
      match resp.jsonBody with
      | some b => .ok b
      | none => .error "JSONDecodeError"
    else if resp.status == 204 then .ok [("data", PyVal.vlist [])]
    else .error ("Search failed: HTTP " ++ toString resp.status ++ ": " ++ resp.text)

/-- The COQL query string `find_by_email` interpolates the email into
(no escaping). -/
def find_by_email_query (search_module email : String) : String :=
  "SELECT * FROM " ++ search_module ++ " WHERE Email = '" ++ email ++ "'"

/-- `Search.find_by_email`: COQL first; on `SearchError` fall back to the
criteria search; on a second `SearchError` return `[]`. Returns the
records together with the trace of issued queries. -/
def find_by_email (post : String → Except String V8.HttpR)
    (get : String → String → Except String V8.HttpR)
    (developments_module : String) (moduleArg : Option String) (email : String) :
    List PyVal × List V8.QEv :=
  let search_module := moduleArg.getD developments_module
  let query := find_by_email_query search_module email
  match coql_query post query with
  | .ok result => (asList (dget result "data"), [V8.QEv.coqlCall query])
  | .error _ =>
    let criteria := "Email:equals:" ++ email
    match search_records get search_module criteria with
    | .ok result =>
      (asList (dget result "data"),
        [V8.QEv.coqlCall query, V8.QEv.criteriaSearch search_module criteria])
    | .error _ =>
      ([], [V8.QEv.coqlCall query, V8.QEv.criteriaSearch search_module criteria])

end SearchM

/-! # Theorems

## C4 — the duplicate check can never fire -/

/-- Every successful `coql_query` result dict carries the key `data` and
never carries the key `records`. -/
theorem coql_query_data_not_records (post : String → Except String V8.HttpR)
    (q : String) (d : PyDict) (h : V8.coql_query post q = .ok d) :
    (dget d "data").isSome = true ∧ dget d "records" = none := by
  unfold V8.coql_query at h
  split at h
  · cases h
    exact ⟨rfl, rfl⟩
  · split at h
    · cases h
      exact ⟨rfl, rfl⟩
    · split at h
      · split at h
        · rename_i b _
          cases h
          unfold V8.coql_success_dict
          split
          · exact ⟨rfl, rfl⟩
          · exact ⟨rfl, rfl⟩
        · simp at h
      · cases h
        exact ⟨rfl, rfl⟩

/-- Claim C4: for every remote behaviour `post`, every configuration of
`disable_coql_features` and every Gmail message id,
`check_email_already_processed` returns `False`: its success branch reads
the key `records`, but `coql_query` only ever places results under `data`,
and every exception path also yields `False` — so the duplicate check
never reports an email as already processed and never prevents a second
note. -/
theorem check_email_already_processed_always_false
    (post : String → Except String V8.HttpR) (disable_coql_features : Bool)
    (gmail_message_id : String) :
    V8.check_email_already_processed post disable_coql_features gmail_message_id
      = false ∧
    ∀ q d, V8.coql_query post q = .ok d →
      (dget d "data").isSome = true ∧ dget d "records" = none := by
  refine ⟨?_, fun q d h => coql_query_data_not_records post q d h⟩
  unfold V8.check_email_already_processed
  split
  · split
    · rfl
    · rename_i d hd
      have hr := (coql_query_data_not_records post _ d hd).2
      simp [hr, truthyOpt]
  · rfl

/-- Witness for C4 at a concrete remote behaviour that does return a
matching note record (under `data`): the check still answers `False`. -/
def c4post : String → Except String V8.HttpR := fun _ =>
  .ok ⟨200, some [("data", PyVal.vlist [PyVal.vdict [("id", PyVal.vstr "77001")]])], ""⟩

theorem check_email_already_processed_always_false_witness :
    V8.check_email_already_processed c4post false "gm-12345" = false ∧
    (dget [("data", PyVal.vlist [PyVal.vdict [("id", PyVal.vstr "77001")]]),
        ("info", PyVal.vdict []), ("success", PyVal.vbool true)] "data").isSome
      = true ∧
    dget [("data", PyVal.vlist [PyVal.vdict [("id", PyVal.vstr "77001")]]),
        ("info", PyVal.vdict []), ("success", PyVal.vbool true)] "records"
      = none := by
  have h := check_email_already_processed_always_false c4post false "gm-12345"
  have h2 := h.2 "SELECT id FROM Notes"
    [("data", PyVal.vlist [PyVal.vdict [("id", PyVal.vstr "77001")]]),
     ("info", PyVal.vdict []), ("success", PyVal.vbool true)] (by rfl)
  exact ⟨h.1, h2.1, h2.2⟩

/-! ## C2 — fixed category precedence, first hit final, exact no-match result -/

/-- View a helper result dict as an optional hit. -/
def toOpt (m : MatchResult) : Option MatchResult :=
  if m.found then some m else none

/-- First hit of an ordered list of category probes (no backtracking). -/
def firstFound : List (Option MatchResult) → Option MatchResult
  | [] => none
  | some r :: _ => some r
  | none :: rest => firstFound rest

/-- The five source categories probed by the matching engine, in the fixed
precedence: sender domain/username, address, company, development name,
subject. -/
def category_probes (ws : String → Except String (List Rec)) (ec : EmailContent)
    (di : DevelopmentInfo) : List (Option MatchResult) :=
  [strat_sender (word_search_safe ws) ec.from_addresses,
   toOpt (if di.property_address.getD "" ≠ "" then
     search_by_address_parts (word_search_safe ws) (di.property_address.getD "")
   else notFoundResult),
   toOpt (if di.client_name.getD "" ≠ "" then
     search_by_company_parts (word_search_safe ws) (di.client_name.getD "")
   else notFoundResult),
   toOpt (if di.development_name.getD "" ≠ "" then
     search_by_company_parts (word_search_safe ws) (di.development_name.getD "")
   else notFoundResult),
   toOpt (if ec.subject ≠ "" then
     search_subject_keywords (word_search_safe ws) ec.subject
   else notFoundResult)]

/-- Specification-level matcher: accept the first category that hits, with
no backtracking; when all five categories miss, answer exactly
`{'found': False, 'method': 'no_match', 'confidence': 'none'}`. -/
def match_first_category (ws : String → Except String (List Rec))
    (ec : EmailContent) (di : DevelopmentInfo) : MatchResult :=
  (firstFound (category_probes ws ec di)).getD noMatchResult

/-- The guarded five-way cascade of the matching engine, generalized over
the category results, equals the first-hit specification. -/
theorem cascade_first_found (o1 : Option MatchResult) (m2 m3 m4 m5 : MatchResult) :
    (match o1 with
     | some r => r
     | none =>
       if m2.found then m2
       else if m3.found then m3
       else if m4.found then m4
       else if m5.found then m5
       else noMatchResult)
    = (firstFound [o1, toOpt m2, toOpt m3, toOpt m4, toOpt m5]).getD
        noMatchResult := by
  cases o1 with
  | some r => simp [firstFound]
  | none =>
    by_cases h2 : m2.found <;> by_cases h3 : m3.found <;>
      by_cases h4 : m4.found <;> by_cases h5 : m5.found <;>
        simp [firstFound, toOpt, h2, h3, h4, h5]

/-- Claim C2: `_find_matching_development_smart` probes the source
categories in the fixed precedence domain/username, address, company,
development, subject; the first category to yield a hit is final (no
backtracking), and if all five miss it returns exactly the
`no_match`/`none` result — i.e. it coincides with the first-hit
specification `match_first_category`. -/
theorem find_matching_development_smart_first_hit
    (ws : String → Except String (List Rec)) (ec : EmailContent)
    (di : DevelopmentInfo) :
    find_matching_development_smart ws ec di = match_first_category ws ec di :=
  cascade_first_found
    (strat_sender (word_search_safe ws) ec.from_addresses)
    (if di.property_address.getD "" ≠ "" then
      search_by_address_parts (word_search_safe ws) (di.property_address.getD "")
    else notFoundResult)
    (if di.client_name.getD "" ≠ "" then
      search_by_company_parts (word_search_safe ws) (di.client_name.getD "")
    else notFoundResult)
    (if di.development_name.getD "" ≠ "" then
      search_by_company_parts (word_search_safe ws) (di.development_name.getD "")
    else notFoundResult)
    (if ec.subject ≠ "" then
      search_subject_keywords (word_search_safe ws) ec.subject
    else notFoundResult)

/-! ## C1 — the guarantee engine always sets `success` -/

/-- `_create_fallback_note` terminates in exactly one outcome and that
outcome's `success` key is set, `True` or `False`, on every path
(no-accounts, note-creation success, note-creation failure, exceptions). -/
theorem create_fallback_note_sets_success
    (noteApi : String → String → String → Except String PyVal)
    (listApi : Except String AccountsHttp) (st : ProcState) (ec : EmailContent)
    (email_summary gmail_message_id attempted_method timestamp : String) :
    (create_fallback_note noteApi listApi st ec email_summary gmail_message_id
      attempted_method timestamp).1.success = some true ∨
    (create_fallback_note noteApi listApi st ec email_summary gmail_message_id
      attempted_method timestamp).1.success = some false := by
  simp only [create_fallback_note]
  split
  · exact Or.inr rfl
  · exact Or.inr rfl
  · split
    · exact Or.inl rfl
    · exact Or.inr rfl

/-- Claim C1: for every email content, summary, message id, timestamp,
remote behaviour and processor state, and every match result as produced
by the matching engine (a found result always carries its
`development_id` and `method` keys), `_create_note_with_strategy` reaches
exactly one terminal outcome — no exception escapes — and the returned
`ProcessingOutcome` dict has its `success` key set to `True` or to
`False` on every path: matched-note success, matched-note failure
followed by fallback, fallback success, and fallback failure. -/
theorem create_note_with_strategy_always_sets_success
    (noteApi : String → String → String → Except String PyVal)
    (listApi : Except String AccountsHttp) (st : ProcState) (mr : MatchResult)
    (ec : EmailContent) (email_summary gmail_message_id timestamp : String)
    (hwf : mr.found = true → mr.development_id.isSome = true ∧ mr.method.isSome = true) :
    ∃ o st' tr,
      create_note_with_strategy noteApi listApi st mr ec email_summary
        gmail_message_id timestamp = .ok (o, st', tr) ∧
      (o.success = some true ∨ o.success = some false) := by
  unfold create_note_with_strategy
  by_cases hf : mr.found = true
  · obtain ⟨hd, hm⟩ := hwf hf
    obtain ⟨d, hd'⟩ := Option.isSome_iff_exists.mp hd
    obtain ⟨m, hm'⟩ := Option.isSome_iff_exists.mp hm
    simp only [hf, if_true, hd', hm']
    split
    · exact ⟨_, _, _, rfl, Or.inl rfl⟩
    · exact ⟨_, _, _, rfl, create_fallback_note_sets_success noteApi listApi st
        ec email_summary gmail_message_id _ timestamp⟩
  · simp only [hf, if_false]
    exact ⟨_, _, _, rfl, create_fallback_note_sets_success noteApi listApi st
      ec email_summary gmail_message_id (mr.method.getD "no_match") timestamp⟩

/-- Witness inputs for C1: a found match, a note API answering success,
and a listing with one account. -/
def c1noteApi : String → String → String → Except String PyVal := fun _ _ _ =>
  .ok (.vdict [("data", .vlist [.vdict [("status", PyVal.vstr "success"),
    ("details", .vdict [("id", PyVal.vstr "note-1")])]])])

def c1listApi : Except String AccountsHttp :=
  .ok ⟨200, [⟨"acc-1", some "First Account"⟩]⟩

def c1mr : MatchResult :=
  foundResult ⟨"dev-9", some "Oakwood"⟩ "Email domain: oakwood.co.uk" "high"

theorem create_note_with_strategy_always_sets_success_witness :
    (c1mr.found = true → c1mr.development_id.isSome = true ∧
      c1mr.method.isSome = true) ∧
    ∃ o st' tr,
      create_note_with_strategy c1noteApi c1listApi ⟨none, false⟩ c1mr
        ⟨"Re: roof inspection", []⟩ "summary" "gm-1" "2026-01-01 00:00:00"
        = .ok (o, st', tr) ∧
      (o.success = some true ∨ o.success = some false) :=
  ⟨fun _ => ⟨rfl, rfl⟩,
   create_note_with_strategy_always_sets_success c1noteApi c1listApi ⟨none, false⟩
     c1mr ⟨"Re: roof inspection", []⟩ "summary" "gm-1" "2026-01-01 00:00:00"
     (fun _ => ⟨rfl, rfl⟩)⟩

/-! ## C9 — deterministic fallback target, cached listing, marked title/body -/

/-- `_create_note_safe` issues exactly one remote note call, on the given
target with the given title and content. -/
theorem create_note_safe_trace
    (noteApi : String → String → String → Except String PyVal)
    (development_id title content : String) :
    (create_note_safe noteApi development_id title content).2 =
      [PEv.noteCall development_id title content] := by
  unfold create_note_safe
  split
  · rfl
  · split
    · rfl
    · rfl

/-- A note-call event never counts as an accounts fetch. -/
theorem beq_noteCall_fetchAccounts (x y z : String) :
    (PEv.noteCall x y z == PEv.fetchAccounts) = false := rfl

/-- Claim C9: whenever the fallback path runs (no match found, or the
matched note failed — conjunct 6), the fallback note targets the first
record of the unfiltered module listing (conjunct 3), fetched at most once
per run and cached thereafter (conjuncts 1–2), with a title prefixed
`"Email (Unmatched): "` (conjunct 4) and a body naming the originally
attempted matching method (conjunct 5). -/
theorem create_fallback_note_deterministic_target
    (noteApi : String → String → String → Except String PyVal)
    (listApi : Except String AccountsHttp) (st : ProcState) (ec : EmailContent)
    (email_summary gmail_message_id attempted_method timestamp : String) :
    (st.cache_populated = true →
      (create_fallback_note noteApi listApi st ec email_summary gmail_message_id
        attempted_method timestamp).2.2.count PEv.fetchAccounts = 0) ∧
    (create_fallback_note noteApi listApi st ec email_summary gmail_message_id
      attempted_method timestamp).2.2.count PEv.fetchAccounts ≤ 1 ∧
    (create_fallback_note noteApi listApi st ec email_summary gmail_message_id
      attempted_method timestamp).2.1.cache_populated = true ∧
    (∀ a rest, st.cache_populated = false → listApi = .ok ⟨200, a :: rest⟩ →
      PEv.noteCall a.rid (fallback_note_title ec.subject)
          (fallback_note_content email_summary attempted_method gmail_message_id
            timestamp)
        ∈ (create_fallback_note noteApi listApi st ec email_summary
            gmail_message_id attempted_method timestamp).2.2 ∧
      ((create_fallback_note noteApi listApi st ec email_summary gmail_message_id
          attempted_method timestamp).1.success = some true →
        (create_fallback_note noteApi listApi st ec email_summary gmail_message_id
          attempted_method timestamp).1.development_id = some a.rid)) ∧
    (∃ tail, fallback_note_title ec.subject = "Email (Unmatched): " ++ tail) ∧
    (∃ pre post,
      fallback_note_content email_summary attempted_method gmail_message_id
          timestamp
        = pre ++ ("Attempted Method: " ++ attempted_method) ++ post) ∧
    (∀ mr : MatchResult, mr.found = false →
      create_note_with_strategy noteApi listApi st mr ec email_summary
          gmail_message_id timestamp
        = .ok (create_fallback_note noteApi listApi st ec email_summary
            gmail_message_id (mr.method.getD "no_match") timestamp)) := by
  refine ⟨?_, ?_, ?_, ?_, ?_, ?_, ?_⟩
  · intro hc
    simp only [create_fallback_note, hc, if_true]
    split
    · rfl
    · rfl
    · split <;>
        simp [create_note_safe_trace, List.count_cons, List.count_nil,
          beq_noteCall_fetchAccounts]
  · by_cases hc : st.cache_populated = true <;>
      simp only [create_fallback_note, hc, if_true, if_false,
        Bool.false_eq_true] <;>
      split <;>
      first
        | (simp
           done)
        | (split <;>
            simp [create_note_safe_trace, List.count_cons, List.count_nil,
              beq_noteCall_fetchAccounts])
  · by_cases hc : st.cache_populated = true
    · simp only [create_fallback_note, hc, if_true]
      split
      · exact hc
      · exact hc
      · split <;> exact hc
    · simp only [create_fallback_note, hc, if_false, Bool.false_eq_true]
      rcases listApi with e | resp
      all_goals
        simp only [populate_accounts_cache]
        try rfl
        try (split <;> first | rfl | (split <;> rfl))
  · intro a rest hc hl
    subst hl
    simp only [create_fallback_note, hc, if_false, Bool.false_eq_true,
      populate_accounts_cache, beq_self_eq_true, eq_self_iff_true, if_true]
    constructor
    · split <;> simp [create_note_safe_trace]
    · split
      · intro _
        simp
      · intro hcontr
        simp at hcontr
  · simp only [fallback_note_title]
    split
    · exact ⟨ec.subject.take (110 - 18) ++ "...",
        String.append_assoc "Email (Unmatched): " (ec.subject.take (110 - 18)) "..."⟩
    · exact ⟨ec.subject, rfl⟩
  · exact ⟨_, _, rfl⟩
  · intro mr hmr
    simp [create_note_with_strategy, hmr]

/-- Witness inputs for C9: a cold cache, a listing whose first record is
`acc-7`, and an email with no match. -/
def c9noteApi : String → String → String → Except String PyVal := fun _ _ _ =>
  .ok (.vdict [("data", .vlist [.vdict [("status", PyVal.vstr "success"),
    ("details", .vdict [("id", PyVal.vstr "note-9")])]])])

def c9listApi : Except String AccountsHttp :=
  .ok ⟨200, [⟨"acc-7", some "Fallback Acct"⟩, ⟨"acc-8", none⟩]⟩

def c9ec : EmailContent := ⟨"Re: urgent inspection", []⟩

theorem create_fallback_note_deterministic_target_witness :
    PEv.noteCall "acc-7" (fallback_note_title "Re: urgent inspection")
        (fallback_note_content "sum" "no_match" "gm-9" "2026-01-01 00:00:00")
      ∈ (create_fallback_note c9noteApi c9listApi ⟨none, false⟩ c9ec "sum" "gm-9"
          "no_match" "2026-01-01 00:00:00").2.2 ∧
    create_note_with_strategy c9noteApi c9listApi ⟨none, false⟩ noMatchResult c9ec
        "sum" "gm-9" "2026-01-01 00:00:00"
      = .ok (create_fallback_note c9noteApi c9listApi ⟨none, false⟩ c9ec "sum"
          "gm-9" "no_match" "2026-01-01 00:00:00") := by
  have h := create_fallback_note_deterministic_target c9noteApi c9listApi
    ⟨none, false⟩ c9ec "sum" "gm-9" "no_match" "2026-01-01 00:00:00"
  refine ⟨?_, ?_⟩
  · exact (h.2.2.2.1 ⟨"acc-7", some "Fallback Acct"⟩ [⟨"acc-8", none⟩] rfl rfl).1
  · exact h.2.2.2.2.2.2 noMatchResult rfl

/-! ## C3 — which signal category yields which confidence tier -/

/-- Specification-level probe: try an ordered list of
(term, method, confidence) candidates against the word search, answering
the first candidate whose search returns a record. -/
def probe_list (wss : String → List Rec) :
    List (String × String × String) → MatchResult
  | [] => notFoundResult
  | (term, method, conf) :: rest =>
    match wss term with
    | r :: _ => foundResult r method conf
    | [] => probe_list wss rest

/-- The address-category candidates, with their confidence tags: the first
extracted token is tagged `high`, the later ones `medium`. -/
def addr_cands (address : String) : List (String × String × String) :=
  ((extract_address_keywords address).take 3).enum.map
    (fun p => (p.2, "Address part: " ++ p.2, if p.1 = 0 then "high" else "medium"))

/-- The company-category candidates: first token `high`, second `medium`. -/
def company_cands (company_name : String) : List (String × String × String) :=
  ((extract_company_keywords company_name).take 2).enum.map
    (fun p => (p.2, "Company part: " ++ p.2, if p.1 = 0 then "high" else "medium"))

/-- The subject-category candidates: every keyword is tagged `low`. -/
def subject_cands (subject : String) : List (String × String × String) :=
  ((extract_subject_keywords subject).take 3).map
    (fun p => (p, "Subject keyword: " ++ p, "low"))

/-- The sender-category candidates: per sender with an `@`, the domain
tagged `high` then (if longer than 3 characters) the username tagged
`medium`. -/
def sender_cands (senders : List String) : List (String × String × String) :=
  senders.flatMap (fun s =>
    if s ≠ "" ∧ pyContains s '@' then
      ((pySplitChar s '@').getD 1 "",
        "Email domain: " ++ (pySplitChar s '@').getD 1 "", "high") ::
      (if ((pySplitChar s '@').getD 0 "").length > 3 then
        [((pySplitChar s '@').getD 0 "",
          "Email username: " ++ (pySplitChar s '@').getD 0 "", "medium")]
      else [])
    else [])

theorem probe_list_append (wss : String → List Rec)
    (l1 l2 : List (String × String × String)) :
    probe_list wss (l1 ++ l2) =
      if (probe_list wss l1).found then probe_list wss l1
      else probe_list wss l2 := by
  induction l1 with
  | nil => simp [probe_list, notFoundResult]
  | cons c rest ih =>
    obtain ⟨term, method, conf⟩ := c
    simp only [List.cons_append, probe_list]
    cases wss term with
    | nil => simpa using ih
    | cons r rs => simp [foundResult]

theorem addr_loop_eq_probe (wss : String → List Rec) (ps : List String) (i : Nat) :
    addr_loop wss i ps =
      probe_list wss ((ps.enumFrom i).map
        (fun p => (p.2, "Address part: " ++ p.2,
          if p.1 = 0 then "high" else "medium"))) := by
  induction ps generalizing i with
  | nil => rfl
  | cons p rest ih =>
    simp only [addr_loop, List.enumFrom, List.map, probe_list]
    cases wss p with
    | nil => exact ih (i + 1)
    | cons r rs => rfl

theorem company_loop_eq_probe (wss : String → List Rec) (ps : List String) (i : Nat) :
    company_loop wss i ps =
      probe_list wss ((ps.enumFrom i).map
        (fun p => (p.2, "Company part: " ++ p.2,
          if p.1 = 0 then "high" else "medium"))) := by
  induction ps generalizing i with
  | nil => rfl
  | cons p rest ih =>
    simp only [company_loop, List.enumFrom, List.map, probe_list]
    cases wss p with
    | nil => exact ih (i + 1)
    | cons r rs => rfl

theorem subject_loop_eq_probe (wss : String → List Rec) (ps : List String) :
    subject_loop wss ps =
      probe_list wss (ps.map (fun p => (p, "Subject keyword: " ++ p, "low"))) := by
  induction ps with
  | nil => rfl
  | cons p rest ih =>
    simp only [subject_loop, List.map, probe_list]
    cases wss p with
    | nil => exact ih
    | cons r rs => rfl

theorem sender_cands_cons (s : String) (rest : List String) :
    sender_cands (s :: rest) =
      (if s ≠ "" ∧ pyContains s '@' = true then
        ((pySplitChar s '@').getD 1 "",
          "Email domain: " ++ (pySplitChar s '@').getD 1 "", "high") ::
        (if ((pySplitChar s '@').getD 0 "").length > 3 then
          [((pySplitChar s '@').getD 0 "",
            "Email username: " ++ (pySplitChar s '@').getD 0 "", "medium")]
        else [])
      else []) ++ sender_cands rest := by
  simp [sender_cands, List.flatMap_cons]

theorem strat_sender_eq_probe (wss : String → List Rec) (senders : List String) :
    strat_sender wss senders = toOpt (probe_list wss (sender_cands senders)) := by
  induction senders with
  | nil => rfl
  | cons s rest ih =>
    rw [sender_cands_cons]
    by_cases hs : s ≠ "" ∧ pyContains s '@' = true
    · rw [if_pos hs]
      simp only [strat_sender, if_pos hs, List.cons_append]
      cases hd : wss ((pySplitChar s '@').getD 1 "") with
      | cons r rs =>
        simp only [probe_list, hd]
        simp [toOpt, foundResult]
      | nil =>
        simp only [probe_list, hd]
        by_cases hl : ((pySplitChar s '@').getD 0 "").length > 3
        · simp only [if_pos hl, List.cons_append, List.nil_append, probe_list]
          cases hu : wss ((pySplitChar s '@').getD 0 "") with
          | cons r rs =>
            simp only [hu]
            simp [toOpt, foundResult]
          | nil =>
            simp only [hu]
            exact ih
        · simp only [if_neg hl, List.nil_append]
          exact ih
    · rw [if_neg hs]
      simp only [strat_sender, if_neg hs, List.nil_append]
      exact ih

theorem search_by_address_parts_eq_probe (wss : String → List Rec)
    (address : String) :
    search_by_address_parts wss address = probe_list wss (addr_cands address) := by
  by_cases ha : address = ""
  · subst ha
    rfl
  · unfold search_by_address_parts addr_cands
    rw [if_neg ha, addr_loop_eq_probe]
    rfl

theorem search_by_company_parts_eq_probe (wss : String → List Rec)
    (company_name : String) :
    search_by_company_parts wss company_name =
      probe_list wss (company_cands company_name) := by
  by_cases hc : company_name = ""
  · subst hc
    rfl
  · unfold search_by_company_parts company_cands
    rw [if_neg hc, company_loop_eq_probe]
    rfl

theorem search_subject_keywords_eq_probe (wss : String → List Rec)
    (subject : String) :
    search_subject_keywords wss subject =
      probe_list wss (subject_cands subject) := by
  by_cases hs : subject = ""
  · subst hs
    rfl
  · unfold search_subject_keywords subject_cands
    rw [if_neg hs, subject_loop_eq_probe]

/-- Inputs refuting claim C3 as stated: a word search hitting on the first
company token. -/
def c3ws : String → Except String (List Rec) := fun t =>
  if t = "Acme" then .ok [⟨"dev-123", some "Acme Developments"⟩] else .ok []

def c3ec : EmailContent := ⟨"", []⟩

def c3di : DevelopmentInfo := ⟨none, some "Acme Ltd", none⟩

/-- Counterexample to claim C3 as stated: on the concrete email with
client name `"Acme Ltd"` and a word search hitting on `"Acme"`, the
matching engine's hit is produced by a company token (`method =
"Company part: Acme"`) and yet the confidence is `"high"` — whereas the
claim allows `high` only for the sender domain or the first address token
and maps company tokens to `medium`. -/
theorem confidence_company_token_high_counterexample :
    (find_matching_development_smart c3ws c3ec c3di).method
        = some "Company part: Acme" ∧
    (find_matching_development_smart c3ws c3ec c3di).confidence = some "high" :=
  ⟨rfl, rfl⟩

/-- Claim C3 (amended): the confidence tier is determined by the
SearchTerm category that produced the hit as follows — sender domain,
first address token, or **first company/development-name token** → `high`;
sender username, later address token, or second company/development-name
token → `medium`; subject keyword → `low`. Each category helper equals the
ordered candidate probe whose confidence tags spell out exactly this
mapping (`sender_cands`, `addr_cands`, `company_cands`, `subject_cands`). -/
theorem confidence_tier_by_category (wss : String → List Rec)
    (address company_name subject : String) (senders : List String) :
    strat_sender wss senders = toOpt (probe_list wss (sender_cands senders)) ∧
    search_by_address_parts wss address = probe_list wss (addr_cands address) ∧
    search_by_company_parts wss company_name =
      probe_list wss (company_cands company_name) ∧
    search_subject_keywords wss subject =
      probe_list wss (subject_cands subject) :=
  ⟨strat_sender_eq_probe wss senders,
   search_by_address_parts_eq_probe wss address,
   search_by_company_parts_eq_probe wss company_name,
   search_subject_keywords_eq_probe wss subject⟩

/-! ## C5 — the free-word fallback never follows a non-empty structured result -/

/-- Every remote event of strategy 1 is a per-module email search. -/
theorem aes_stage1_events (sbe : String → Except String (List PyVal))
    (modules : List String) (e : V8.QEv)
    (he : e ∈ (V8.aes_stage1 sbe modules).2) : ∃ m, e = V8.QEv.emailSearch m := by
  induction modules with
  | nil => simp [V8.aes_stage1] at he
  | cons mo rest ih =>
    unfold V8.aes_stage1 at he
    split at he <;>
      (rw [show ∀ r : V8.ResultsMap, ∀ ev : V8.QEv, ∀ t : List V8.QEv,
          ((r, ev :: t) : V8.ResultsMap × List V8.QEv).2 = ev :: t
          from fun _ _ _ => rfl, List.mem_cons] at he
       rcases he with rfl | he
       · exact ⟨mo, rfl⟩
       · exact ih he)

/-- Every remote event of strategy 2 is a COQL call. -/
theorem aes_stage2_events (post : String → Except String V8.HttpR)
    (dm email : String) (cn : Option String) (r1 : V8.ResultsMap) (e : V8.QEv)
    (he : e ∈ (V8.aes_stage2 post dm email cn r1).2) : ∃ q, e = V8.QEv.coqlCall q := by
  unfold V8.aes_stage2 at he
  dsimp only [] at he
  repeat
    first
      | split at he
      | exact ⟨_, List.mem_singleton.mp he⟩
      | exact absurd he (List.not_mem_nil e)

/-- Strategy 3 issues nothing when the accumulated map is non-empty. -/
theorem aes_stage3_trace_empty (wordS : String → String → Except String (List PyVal))
    (reprOf : PyVal → String) (email : String) (modules : List String)
    (r12 : V8.ResultsMap) (h : r12 ≠ []) :
    (V8.aes_stage3 wordS reprOf email modules r12).2 = [] := by
  have hie : r12.isEmpty = false := by
    cases r12 with
    | nil => exact absurd rfl h
    | cons a l => rfl
  simp [V8.aes_stage3, hie]

/-- An empty strategy-2 result forces an empty strategy-1 result. -/
theorem aes_stage2_result_nil (post : String → Except String V8.HttpR)
    (dm email : String) (cn : Option String) (r1 : V8.ResultsMap)
    (h : (V8.aes_stage2 post dm email cn r1).1 = []) : r1 = [] := by
  unfold V8.aes_stage2 at h
  dsimp only [] at h
  repeat
    first
      | split at h
      | exact h
      | exact (List.append_eq_nil.mp h).1

/-- Claim C5: the free-word fallback is never issued once the structured
or email search has already returned at least one result — in
`advanced_email_search` a word-search event in the trace forces the
accumulated result map after strategies 1 and 2 (and hence after
strategy 1) to be empty, and in `find_by_email` a criteria-search event in
the trace occurs only when the structured COQL path raised. -/
theorem word_fallback_only_when_structured_empty
    (sbe : String → Except String (List PyVal))
    (post : String → Except String V8.HttpR)
    (wordS : String → String → Except String (List PyVal))
    (reprOf : PyVal → String) (dm email : String) (cn : Option String)
    (im : Option (List String)) (postS : String → Except String V8.HttpR)
    (getS : String → String → Except String V8.HttpR) (dm2 : String)
    (ma : Option String) (em2 : String) :
    (∀ m t, V8.QEv.wordSearch m t ∈
        (V8.advanced_email_search sbe post wordS reprOf dm email cn im).2 →
      (V8.aes_stage2 post dm email cn
        (V8.aes_stage1 sbe
          (im.getD [dm, "Contacts", "Leads", "Accounts", "Deals"])).1).1 = [] ∧
      (V8.aes_stage1 sbe
        (im.getD [dm, "Contacts", "Leads", "Accounts", "Deals"])).1 = []) ∧
    (∀ m c, V8.QEv.criteriaSearch m c ∈ (SearchM.find_by_email postS getS dm2 ma em2).2 →
      ∃ e, SearchM.coql_query postS
        (SearchM.find_by_email_query (ma.getD dm2) em2) = .error e) := by
  constructor
  · intro m t hmem
    simp only [V8.advanced_email_search] at hmem
    rcases List.mem_append.mp hmem with hmem' | h3
    · rcases List.mem_append.mp hmem' with h1 | h2
      · obtain ⟨m', hm'⟩ := aes_stage1_events sbe _ _ h1
        simp at hm'
      · obtain ⟨q', hq'⟩ := aes_stage2_events post dm email cn _ _ h2
        simp at hq'
    · by_cases hr2 : (V8.aes_stage2 post dm email cn
          (V8.aes_stage1 sbe
            (im.getD [dm, "Contacts", "Leads", "Accounts", "Deals"])).1).1 = []
      · exact ⟨hr2, aes_stage2_result_nil post dm email cn _ hr2⟩
      · rw [aes_stage3_trace_empty wordS reprOf email _ _ hr2] at h3
        simp at h3
  · intro m c hmem
    cases hq : SearchM.coql_query postS
        (SearchM.find_by_email_query (ma.getD dm2) em2) with
    | error e => exact ⟨e, rfl⟩
    | ok d =>
      simp only [SearchM.find_by_email, SearchM.find_by_email_query] at hmem
      rw [show SearchM.coql_query postS
          ("SELECT * FROM " ++ ma.getD dm2 ++ " WHERE Email = '" ++ em2 ++ "'")
          = .ok d from hq] at hmem
      simp at hmem

/-- Witness inputs for C5: all structured searches empty (so the word
fallback does fire), and a COQL backend that fails (so the criteria
fallback does fire). -/
def c5sbe : String → Except String (List PyVal) := fun _ => .ok []

def c5post : String → Except String V8.HttpR := fun _ => .error "unused"

def c5word : String → String → Except String (List PyVal) := fun _ _ => .ok []

def c5repr : PyVal → String := fun _ => ""

def c5postS : String → Except String V8.HttpR := fun _ =>
  .ok ⟨500, none, "server error"⟩

def c5getS : String → String → Except String V8.HttpR := fun _ _ =>
  .ok ⟨204, none, ""⟩

theorem word_fallback_only_when_structured_empty_witness :
    (V8.aes_stage2 c5post "Developments" "jane@oakwood.co.uk" none
      (V8.aes_stage1 c5sbe
        ["Developments", "Contacts", "Leads", "Accounts", "Deals"]).1).1 = [] ∧
    ∃ e, SearchM.coql_query c5postS
      (SearchM.find_by_email_query "Developments" "x@y.z") = .error e := by
  have h := word_fallback_only_when_structured_empty c5sbe c5post c5word c5repr
    "Developments" "jane@oakwood.co.uk" none none c5postS c5getS
    "Developments" none "x@y.z"
  exact ⟨(h.1 "Developments" "jane" (by decide)).1,
         h.2 "Developments" "Email:equals:x@y.z" (by decide)⟩

/-! ## C6 — cache validity and the field-metadata TTL protocol -/

theorem string_data_append (s t : String) : (s ++ t).data = s.data ++ t.data := by
  cases s
  cases t
  rfl

theorem isPrefixOf_append_self (l t : List Char) : l.isPrefixOf (l ++ t) = true := by
  induction l with
  | nil => simp [List.isPrefixOf]
  | cons c cs ih => simp [List.isPrefixOf, ih]

/-- A fields cache key starts with `fields`. -/
theorem pyStartsWith_fields_key (m : String) :
    pyStartsWith ("fields_metadata_" ++ m) "fields" = true := by
  have h : ("fields_metadata_" ++ m) = "fields" ++ ("_metadata_" ++ m) := by
    rw [← String.append_assoc]
    rfl
  rw [h]
  unfold pyStartsWith
  rw [string_data_append]
  exact isPrefixOf_append_self _ _

/-- A fields cache key does not start with `modules`. -/
theorem pyStartsWith_fields_key_not_modules (m : String) :
    pyStartsWith ("fields_metadata_" ++ m) "modules" = false := by
  unfold pyStartsWith
  rw [string_data_append]
  rfl

/-- A modules cache key starts with `modules`. -/
theorem pyStartsWith_modules_key (m : String) :
    pyStartsWith ("modules_metadata_" ++ m) "modules" = true := by
  have h : ("modules_metadata_" ++ m) = "modules" ++ ("_metadata_" ++ m) := by
    rw [← String.append_assoc]
    rfl
  rw [h]
  unfold pyStartsWith
  rw [string_data_append]
  exact isPrefixOf_append_self _ _

theorem tlookup_cons_self (ts : List (String × Int)) (k : String) (v : Int) :
    V8.tlookup ((k, v) :: ts) k = some v := by
  simp [V8.tlookup, List.find?]

theorem dget_cons_self (d : PyDict) (k : String) (v : PyVal) :
    dget ((k, v) :: d) k = some v := by
  simp [dget, List.find?]

/-- Claim C6: a cached entry is valid exactly when
`now − written_at < ttl_hours*3600` (conjunct 1); a field-metadata request
while the entry is valid is served from the cache with no network request
and no state change (conjunct 2); on miss or expiry a remote request is
issued (conjunct 3), and when it succeeds both the cached payload and its
timestamp are overwritten, making the entry valid for the next
`ttl − 1` seconds and invalid `ttl + 1` seconds later (conjunct 4). -/
theorem cache_ttl_protocol (fetch : Except String V8.HttpR) (now : Int)
    (st : V8.ZState) (dm : String) (ma : Option String) :
    (∀ k ttl, V8.is_cache_valid st now k ttl = true ↔
      ∃ t, V8.tlookup st.timestamps k = some t ∧ now - t < ttl * 3600) ∧
    (V8.is_cache_valid st now ("fields_metadata_" ++ ma.getD dm) 12 = true →
      V8.get_field_metadata fetch now st dm ma =
        ((dget st.field_cache ("fields_metadata_" ++ ma.getD dm)).getD
          (.vlist []), st, false)) ∧
    (V8.is_cache_valid st now ("fields_metadata_" ++ ma.getD dm) 12 = false →
      (V8.get_field_metadata fetch now st dm ma).2.2 = true) ∧
    (∀ resp b, V8.is_cache_valid st now ("fields_metadata_" ++ ma.getD dm) 12 = false →
      fetch = .ok resp → resp.status = 200 → resp.jsonBody = some b →
      (V8.get_field_metadata fetch now st dm ma).1 =
        (dget b "fields").getD (.vlist []) ∧
      V8.tlookup (V8.get_field_metadata fetch now st dm ma).2.1.timestamps
        ("fields_metadata_" ++ ma.getD dm) = some now ∧
      dget (V8.get_field_metadata fetch now st dm ma).2.1.field_cache
          ("fields_metadata_" ++ ma.getD dm)
        = some ((dget b "fields").getD (.vlist [])) ∧
      V8.is_cache_valid (V8.get_field_metadata fetch now st dm ma).2.1
        (now + 12 * 3600 - 1) ("fields_metadata_" ++ ma.getD dm) 12 = true ∧
      V8.is_cache_valid (V8.get_field_metadata fetch now st dm ma).2.1
        (now + 12 * 3600 + 1) ("fields_metadata_" ++ ma.getD dm) 12 = false) := by
  refine ⟨?_, ?_, ?_, ?_⟩
  · intro k ttl
    unfold V8.is_cache_valid
    cases hk : V8.tlookup st.timestamps k with
    | none => simp
    | some t => simp [decide_eq_true_iff]
  · intro hv
    simp only [V8.get_field_metadata, hv, if_true]
  · intro hv
    simp only [V8.get_field_metadata, hv, if_false, Bool.false_eq_true]
    split
    · rfl
    · split
      · split
        · rfl
        · rfl
      · rfl
  · intro resp b hv hf hs hb
    subst hf
    simp only [V8.get_field_metadata, hv, if_false, Bool.false_eq_true, hs, hb,
      beq_self_eq_true, if_true, V8.update_cache,
      pyStartsWith_fields_key, pyStartsWith_fields_key_not_modules]
    refine ⟨?_, ?_, ?_, ?_, ?_⟩
    · trivial
    · exact tlookup_cons_self _ _ _
    · exact dget_cons_self _ _ _
    · unfold V8.is_cache_valid
      rw [tlookup_cons_self]
      rw [decide_eq_true_iff]
      omega
    · unfold V8.is_cache_valid
      rw [tlookup_cons_self]
      rw [decide_eq_false_iff_not]
      omega

/-- Witness inputs for C6: an empty cache and a successful field fetch. -/
def c6fetch : Except String V8.HttpR :=
  .ok ⟨200, some [("fields",
    PyVal.vlist [PyVal.vdict [("api_name", PyVal.vstr "Email")]])], ""⟩

def c6st : V8.ZState := ⟨[], [], []⟩

theorem cache_ttl_protocol_witness :
    (V8.get_field_metadata c6fetch 1000 c6st "Developments" none).2.2 = true ∧
    (V8.get_field_metadata c6fetch 1000 c6st "Developments" none).1
      = PyVal.vlist [PyVal.vdict [("api_name", PyVal.vstr "Email")]] ∧
    V8.is_cache_valid
      (V8.get_field_metadata c6fetch 1000 c6st "Developments" none).2.1
      (1000 + 12 * 3600 - 1) ("fields_metadata_" ++ "Developments") 12 = true ∧
    V8.is_cache_valid
      (V8.get_field_metadata c6fetch 1000 c6st "Developments" none).2.1
      (1000 + 12 * 3600 + 1) ("fields_metadata_" ++ "Developments") 12 = false := by
  have h := cache_ttl_protocol c6fetch 1000 c6st "Developments" none
  have h4 := h.2.2.2
    ⟨200, some [("fields",
      PyVal.vlist [PyVal.vdict [("api_name", PyVal.vstr "Email")]])], ""⟩
    [("fields", PyVal.vlist [PyVal.vdict [("api_name", PyVal.vstr "Email")]])]
    (by rfl) rfl rfl rfl
  refine ⟨h.2.2.1 (by rfl), ?_, h4.2.2.2.1, h4.2.2.2.2⟩
  rw [h4.1]
  rfl

/-! ## C10 — `get_module_metadata` returns differently shaped values on its
two paths -/

/-- Claim C10: a fresh `get_module_metadata` fetch returns the wrapper dict
`{'success': True, 'metadata': m}`, while a re-request within the 24-hour
TTL returns the bare cached metadata `m` itself — and the two values are
never equal. -/
theorem get_module_metadata_shape_mismatch (fetch : Except String V8.HttpR)
    (resp : V8.HttpR) (b : PyDict) (metadata : PyVal) (rest : List PyVal)
    (now now2 : Int) (st : V8.ZState) (dm : String) (ma : Option String)
    (hv : V8.is_cache_valid st now ("modules_metadata_" ++ ma.getD dm) 24 = false)
    (hf : fetch = .ok resp) (hs : resp.status = 200) (hb : resp.jsonBody = some b)
    (hm : asList (dget b "modules") = metadata :: rest)
    (ht : now2 - now < 24 * 3600) :
    (V8.get_module_metadata fetch now st dm ma).1
      = PyVal.vdict [("success", PyVal.vbool true), ("metadata", metadata)] ∧
    (∀ fetch2, V8.get_module_metadata fetch2 now2
        (V8.get_module_metadata fetch now st dm ma).2 dm ma
      = (metadata, (V8.get_module_metadata fetch now st dm ma).2)) ∧
    (V8.get_module_metadata fetch now st dm ma).1 ≠ metadata := by
  subst hf
  have hscrut : (((some b).map (fun bb => asList (dget bb "modules"))).getD
      ([] : List PyVal)) = metadata :: rest := by
    simpa using hm
  have h1 : V8.get_module_metadata (.ok resp) now st dm ma
      = (PyVal.vdict [("success", PyVal.vbool true), ("metadata", metadata)],
         V8.update_cache now st ("modules_metadata_" ++ ma.getD dm) metadata) := by
    simp only [V8.get_module_metadata, hv, if_false, Bool.false_eq_true, hs, hb,
      beq_self_eq_true, eq_self_iff_true, if_true, hscrut]
  refine ⟨by rw [h1], ?_, ?_⟩
  · intro fetch2
    rw [h1]
    have hts : V8.tlookup (V8.update_cache now st
        ("modules_metadata_" ++ ma.getD dm) metadata).timestamps
        ("modules_metadata_" ++ ma.getD dm) = some now := by
      simp only [V8.update_cache, pyStartsWith_modules_key, eq_self_iff_true,
        if_true]
      exact tlookup_cons_self _ _ _
    have hmc : dget (V8.update_cache now st
        ("modules_metadata_" ++ ma.getD dm) metadata).module_cache
        ("modules_metadata_" ++ ma.getD dm) = some metadata := by
      simp only [V8.update_cache, pyStartsWith_modules_key, eq_self_iff_true,
        if_true]
      exact dget_cons_self _ _ _
    have hval : V8.is_cache_valid (V8.update_cache now st
        ("modules_metadata_" ++ ma.getD dm) metadata) now2
        ("modules_metadata_" ++ ma.getD dm) 24 = true := by
      simp only [V8.is_cache_valid, hts]
      rw [decide_eq_true_iff]
      omega
    simp only [V8.get_module_metadata, hval, if_true, hmc, Option.getD_some]
  · rw [h1]
    intro h
    have hsz := congrArg sizeOf h
    simp at hsz
    omega

/-- Witness inputs for C10: an empty cache and a module-metadata response. -/
def c10meta : PyVal := PyVal.vdict [("api_name", PyVal.vstr "Developments")]

def c10resp : V8.HttpR := ⟨200, some [("modules", PyVal.vlist [c10meta])], ""⟩

def c10st : V8.ZState := ⟨[], [], []⟩

theorem get_module_metadata_shape_mismatch_witness :
    (V8.get_module_metadata (.ok c10resp) 1000 c10st "Developments" none).1
      = PyVal.vdict [("success", PyVal.vbool true), ("metadata", c10meta)] ∧
    V8.get_module_metadata (.error "no call") 2000
        (V8.get_module_metadata (.ok c10resp) 1000 c10st "Developments" none).2
        "Developments" none
      = (c10meta,
         (V8.get_module_metadata (.ok c10resp) 1000 c10st "Developments" none).2) ∧
    (V8.get_module_metadata (.ok c10resp) 1000 c10st "Developments" none).1
      ≠ c10meta := by
  have h := get_module_metadata_shape_mismatch (.ok c10resp) c10resp
    [("modules", PyVal.vlist [c10meta])] c10meta [] 1000 2000 c10st
    "Developments" none rfl rfl rfl rfl rfl (by omega)
  exact ⟨h.1, h.2.1 (.error "no call"), h.2.2⟩

/-! ## C7 — apostrophe escaping in structured-query construction -/

/-- No apostrophe occurs unescaped (i.e. not immediately preceded by a
backslash) in a character list. -/
def noUnescapedAposAux : List Char → Bool
  | [] => true
  | [c] => c ≠ '\''
  | a :: b :: rest =>
    if a = '\\' ∧ b = '\'' then noUnescapedAposAux rest
    else if a = '\'' then false
    else noUnescapedAposAux (b :: rest)

def noUnescapedApos (s : String) : Bool :=
  noUnescapedAposAux s.data

/-- The escaped image of any character list never starts with an
apostrophe. -/
theorem escape_head_not_apos (l : List Char) (d : Char) (t : List Char)
    (h : l.flatMap (fun c => if c = '\'' then ['\\', '\''] else [c]) = d :: t) :
    d ≠ '\'' := by
  induction l with
  | nil => simp at h
  | cons c rest ih =>
    simp only [List.flatMap_cons] at h
    by_cases hc : c = '\''
    · subst hc
      rw [if_pos rfl] at h
      cases h
      decide
    · rw [if_neg hc] at h
      cases h
      exact hc

/-- Escaping leaves no unescaped apostrophe. -/
theorem escapeApos_no_unescaped_list (l : List Char) :
    noUnescapedAposAux
      (l.flatMap (fun c => if c = '\'' then ['\\', '\''] else [c])) = true := by
  induction l with
  | nil => rfl
  | cons c rest ih =>
    simp only [List.flatMap_cons]
    by_cases hc : c = '\''
    · subst hc
      rw [if_pos rfl]
      simpa [noUnescapedAposAux] using ih
    · rw [if_neg hc]
      cases hfm : rest.flatMap (fun c => if c = '\'' then ['\\', '\''] else [c]) with
      | nil =>
        simp [noUnescapedAposAux, hc]
      | cons d t =>
        have hd : d ≠ '\'' := escape_head_not_apos rest d t hfm
        rw [hfm] at ih
        simp [noUnescapedAposAux, hc, hd, ih]

/-- Claim C7 (amended): on the criteria-search construction path
(`search_developments_by_criteria`) every search value is escaped before
interpolation — the escaped value contains no unescaped apostrophe
(conjunct 1) and is interpolated in its escaped form (conjunct 2) — and
unescaped input does not crash the builder, which still issues exactly the
assembled criteria search (conjunct 3). The COQL path of `find_by_email`,
however, interpolates the raw value with no escaping (conjunct 4). -/
theorem criteria_path_escapes_apostrophes
    (criteria_dict : List (String × String)) (f v s : String)
    (searchCrit : String → String → Except String (List PyVal))
    (dm : String) (ma : Option String) (m email : String) :
    noUnescapedApos (V8.escapeApos s) = true ∧
    ((f, v) ∈ criteria_dict → v ≠ "" →
      ("(" ++ f ++ ":*" ++ V8.escapeApos v ++ "*)")
        ∈ V8.criteria_parts criteria_dict) ∧
    (criteria_dict ≠ [] → V8.criteria_parts criteria_dict ≠ [] →
      (V8.search_developments_by_criteria searchCrit dm criteria_dict ma).2
        = [V8.QEv.criteriaSearch (ma.getD dm)
            (String.intercalate " and " (V8.criteria_parts criteria_dict))]) ∧
    SearchM.find_by_email_query m email
      = "SELECT * FROM " ++ m ++ " WHERE Email = '" ++ email ++ "'" := by
  refine ⟨escapeApos_no_unescaped_list s.data, ?_, ?_, rfl⟩
  · intro hmem hv
    unfold V8.criteria_parts
    apply List.mem_filterMap.mpr
    exact ⟨(f, v), hmem, by simp [hv]⟩
  · intro hd hp
    have hd' : criteria_dict.isEmpty = false := by
      cases criteria_dict with
      | nil => exact absurd rfl hd
      | cons a l => rfl
    have hp' : (V8.criteria_parts criteria_dict).isEmpty = false := by
      cases hcp : V8.criteria_parts criteria_dict with
      | nil => exact absurd hcp hp
      | cons a l => rfl
    simp only [V8.search_developments_by_criteria, hd', hp', Bool.false_eq_true,
      if_false]
    split
    · rfl
    · rfl

/-- An email address containing an apostrophe. -/
def c7email : String :=
  ⟨['o', '\'', 'b', 'r', 'i', 'e', 'n', '@', 'x', '.', 'c', 'o', 'm']⟩

def c7post : String → Except String V8.HttpR := fun _ => .ok ⟨204, none, ""⟩

def c7get : String → String → Except String V8.HttpR := fun _ _ =>
  .ok ⟨204, none, ""⟩

/-- Counterexample to claim C7 as stated: `find_by_email` is a
structured-query construction path, yet for a search value with an
apostrophe it interpolates the raw value — the issued COQL string contains
the unescaped apostrophe sequence and no backslash-escaped one, and
escaping would have changed the value. -/
theorem find_by_email_no_escaping_counterexample :
    (SearchM.find_by_email c7post c7get "Developments" none c7email).2
      = [V8.QEv.coqlCall (SearchM.find_by_email_query "Developments" c7email),
         V8.QEv.criteriaSearch "Developments" ("Email:equals:" ++ c7email)] ∧
    pySubstrIn ⟨['o', '\'', 'b']⟩
      (SearchM.find_by_email_query "Developments" c7email) = true ∧
    pySubstrIn ⟨['\\', '\'']⟩
      (SearchM.find_by_email_query "Developments" c7email) = false ∧
    V8.escapeApos c7email ≠ c7email := by
  refine ⟨rfl, by decide, by decide, by decide⟩

/-- Witness inputs for C7: a criteria dict whose value holds an
apostrophe. -/
def c7val : String := ⟨['O', '\'', 'B', 'r', 'i', 'e', 'n']⟩

def c7crit : String → String → Except String (List PyVal) := fun _ _ => .ok []

theorem criteria_path_escapes_apostrophes_witness :
    noUnescapedApos (V8.escapeApos c7val) = true ∧
    ("(" ++ "Account_Name" ++ ":*" ++ V8.escapeApos c7val ++ "*)")
      ∈ V8.criteria_parts [("Account_Name", c7val)] ∧
    (V8.search_developments_by_criteria c7crit "Developments"
        [("Account_Name", c7val)] none).2
      = [V8.QEv.criteriaSearch "Developments"
          (String.intercalate " and "
            (V8.criteria_parts [("Account_Name", c7val)]))] := by
  have h := criteria_path_escapes_apostrophes [("Account_Name", c7val)]
    "Account_Name" c7val c7val c7crit "Developments" none "Developments" c7email
  exact ⟨h.1, h.2.1 (by decide) (by decide),
         h.2.2.1 (by decide) (by decide)⟩

/-! ## C8 — permission/scope errors are swallowed, not re-raised -/

/-- A remote behaviour failing with an OAuth scope (permission) error. -/
def c8post : String → Except String V8.HttpR := fun _ =>
  .ok ⟨403, some [("code", PyVal.vstr "OAUTH_SCOPE_MISMATCH")],
    "insufficient scope"⟩

def c8get : String → String → Except String V8.HttpR := fun _ _ =>
  .ok ⟨200, some [("data", PyVal.vlist [PyVal.vdict [("id", PyVal.vstr "42")]])], ""⟩

/-- Counterexample to claim C8 as stated: with the structured COQL path
failing on a permission/scope error (HTTP 403, `OAUTH_SCOPE_MISMATCH`),
`find_by_email` does not re-raise — it substitutes the criteria fallback
and returns its records. -/
theorem permission_error_not_reraised_counterexample :
    SearchM.coql_query c8post (SearchM.find_by_email_query "Developments" "a@b.com")
      = .error "COQL query failed: HTTP 403: insufficient scope" ∧
    SearchM.find_by_email c8post c8get "Developments" none "a@b.com"
      = ([PyVal.vdict [("id", PyVal.vstr "42")]],
         [V8.QEv.coqlCall (SearchM.find_by_email_query "Developments" "a@b.com"),
          V8.QEv.criteriaSearch "Developments" "Email:equals:a@b.com"]) :=
  ⟨rfl, rfl⟩

/-- Claim C8 (amended): a permission/scope error on the structured path is
not re-raised across the query-cascade boundary — it is swallowed like any
`SearchError`: whenever the COQL path of `find_by_email` fails (for any
term and module, any error class), the criteria fallback is issued
instead (conjunct 1), and `_word_search_safe` converts any raised search
exception into an empty result list (conjunct 2). -/
theorem search_errors_swallowed (post : String → Except String V8.HttpR)
    (get : String → String → Except String V8.HttpR) (dm : String)
    (ma : Option String) (email : String)
    (ws : String → Except String (List Rec)) (term e : String) :
    ((∃ err, SearchM.coql_query post
        (SearchM.find_by_email_query (ma.getD dm) email) = .error err) →
      V8.QEv.criteriaSearch (ma.getD dm) ("Email:equals:" ++ email)
        ∈ (SearchM.find_by_email post get dm ma email).2) ∧
    (ws term = .error e → word_search_safe ws term = []) := by
  constructor
  · rintro ⟨err, herr⟩
    simp only [SearchM.find_by_email, herr]
    split <;> simp
  · intro he
    unfold word_search_safe
    split
    · rfl
    · rw [he]

/-- Witness inputs for C8: the scope-failing backend and an
exception-raising word search. -/
def c8ws : String → Except String (List Rec) := fun _ =>
  .error "SearchError: OAUTH_SCOPE_MISMATCH"

theorem search_errors_swallowed_witness :
    V8.QEv.criteriaSearch "Developments" ("Email:equals:" ++ "a@b.com")
      ∈ (SearchM.find_by_email c8post c8get "Developments" none "a@b.com").2 ∧
    word_search_safe c8ws "oakwood" = [] := by
  have h := search_errors_swallowed c8post c8get "Developments" none "a@b.com"
    c8ws "oakwood" "SearchError: OAUTH_SCOPE_MISMATCH"
  exact ⟨h.1 ⟨"COQL query failed: HTTP 403: insufficient scope", rfl⟩, h.2 rfl⟩
